import Mathlib

/-!
Verification of the Express error-handling demo
(src/ErrorHandlingIllustration.js, src/utils/catchAsync.js).

The JavaScript source is shallowly embedded: promises are a two-state
outcome type, a raw error is a record of optional fields (JS objects are
bags of possibly-absent properties), and the centralized error-handling
middleware is a sequence of pure state-transformation steps over a state
holding the original error binding, the working copy, and the log.
-/

namespace ExpressErrors

/-! ## Handler boundary adapter (src/utils/catchAsync.js) -/

/-- A settled JS promise: either resolved with a value or rejected with a
failure value. -/
inductive Promise (ε α : Type) where
  | resolved : α → Promise ε α
  | rejected : ε → Promise ε α
deriving DecidableEq, Repr

/-- Observable behaviour of one invocation of a handler `fn(req, res, next)`:
the sequence of arguments it passed to `next` during execution, and the
settled state of the promise it returned. -/
structure HandlerRun (ε : Type) where
  nextCalls : List ε
  outcome : Promise ε Unit
deriving DecidableEq, Repr

/-- Embedding of `promise.catch((err) => next(err))`: on rejection the
callback invokes `next` once with the rejection value and the chained
promise settles resolved; on resolution nothing is added. -/
def catchAsyncRun {ε : Type} (run : HandlerRun ε) : HandlerRun ε :=
  match run.outcome with
  | .resolved _ => run
  | .rejected e => ⟨run.nextCalls ++ [e], .resolved ()⟩

/-- Embedding of `catchAsync` from src/utils/catchAsync.js:
`fn => (req, res, next) => fn(req, res, next).catch(err => next(err))`.
The request context is abstracted as `α`. -/
def catchAsync {α ε : Type} (fn : α → HandlerRun ε) : α → HandlerRun ε :=
  fun req => catchAsyncRun (fn req)

/-! ## Data model: raw errors -/

/-- A Raw Error: an opaque bag of possibly-absent fields, as the
middleware sees it. `errors` models the field-name-to-message mapping of a
validation failure (iteration order of `Object.values` is insertion
order); `keyValue` models the duplicate-key payload read by
`Object.keys(err.keyValue || \x7b\x7d)`. -/
structure RawError where
  name : Option String := none
  message : Option String := none
  code : Option Int := none
  errors : List (String × String) := []
  keyValue : Option (List (String × String)) := none
  statusCode : Option Nat := none
  isOperational : Option Bool := none
deriving DecidableEq, Repr

/-- Modelled from the spec: the Application Error Type of
src/utils/AppError.js, which is not included under src/ (only its callers
are). Spec section 4.2: a constructor taking message and statusCode and
producing an error with isOperational = true, no other behaviour. -/
structure AppError where
  message : String
  statusCode : Nat
  isOperational : Bool
deriving DecidableEq, Repr

/-- Modelled from the spec: `new AppError(message, statusCode)` sets
isOperational to true. -/
def AppError.new (message : String) (statusCode : Nat) : AppError :=
  ⟨message, statusCode, true⟩

/-- An AppError instance viewed as a raw error flowing into the
middleware. Its name tag is the generic runtime tag, none of the four
recognized shapes, and `Object.assign` copies its own enumerable fields
(statusCode, isOperational); the message is restored by the explicit
`error.message = err.message` line. -/
def AppError.toRaw (a : AppError) : RawError :=
  { name := some "Error", message := some a.message,
    statusCode := some a.statusCode, isOperational := some a.isOperational }

/-! ## Centralized error-handling middleware -/

/-- The working value bound to `error` inside the middleware: initially a
shallow copy of the incoming error (with the message explicitly
preserved), possibly overwritten by a fresh AppError by one of the four
classification rules. -/
inductive WorkingError where
  | copy : Option String → Option Nat → WorkingError
  | app : AppError → WorkingError
deriving DecidableEq, Repr

/-- The `message` property of the working value. -/
def WorkingError.message : WorkingError → Option String
  | .copy m _ => m
  | .app a => some a.message

/-- The `statusCode` property of the working value. -/
def WorkingError.statusCode : WorkingError → Option Nat
  | .copy _ s => s
  | .app a => some a.statusCode

/-- JS `x || d` for a possibly-absent number: absent and 0 are falsy. -/
def jsOrNat (x : Option Nat) (d : Nat) : Nat :=
  match x with
  | some n => if n = 0 then d else n
  | none => d

/-- JS `x || d` for a possibly-absent string: absent and "" are falsy. -/
def jsOrStr (x : Option String) (d : String) : String :=
  match x with
  | some s => if s = "" then d else s
  | none => d

/-- State of one run of the error-handling middleware: `err` is the
middleware parameter (never reassigned by the source), `error` the
working copy, `logged` the values passed to `console.error` so far. -/
structure MwState where
  err : RawError
  error : WorkingError
  logged : List RawError
deriving DecidableEq, Repr

/-- `let error = Object.assign(\x7b\x7d, err); error.message = err.message;` —
the shallow copy of the incoming error, message explicitly preserved. -/
def mwInit (e : RawError) : MwState :=
  ⟨e, .copy e.message e.statusCode, []⟩

/-- `console.error(ERROR, err)` — records the original error. -/
def mwLog (s : MwState) : MwState :=
  { s with logged := s.logged ++ [s.err] }

/-- Rule 1: `if (err.name === CastError) error = new AppError(...)`. -/
def mwRuleCast (s : MwState) : MwState :=
  if s.err.name = some "CastError" then
    { s with error := .app (AppError.new "Invalid ID format" 400) }
  else s

/-- Rule 2: `if (err.name === ValidationError)` — join the per-field
messages with ". " and wrap in an AppError with status 400. -/
def mwRuleValidation (s : MwState) : MwState :=
  if s.err.name = some "ValidationError" then
    let messages := String.intercalate ". " (s.err.errors.map Prod.snd)
    { s with error := .app (AppError.new messages 400) }
  else s

/-- Rule 3: `if (err.code === 11000)` — join the keys of
`err.keyValue || \x7b\x7d` with ", " and wrap in an AppError with status 400. -/
def mwRuleDuplicate (s : MwState) : MwState :=
  if s.err.code = some 11000 then
    let field := String.intercalate ", " ((s.err.keyValue.getD []).map Prod.fst)
    { s with error := .app (AppError.new ("Duplicate field value: " ++ field) 400) }
  else s

/-- Rule 4: `if (err.name === DocumentNotFoundError)`. -/
def mwRuleNotFound (s : MwState) : MwState :=
  if s.err.name = some "DocumentNotFoundError" then
    { s with error := .app (AppError.new "Requested document not found" 404) }
  else s

/-- The middleware body up to (not including) the response step, in
source order: copy, log, then the four rules. -/
def mwRun (e : RawError) : MwState :=
  mwRuleNotFound (mwRuleDuplicate (mwRuleValidation (mwRuleCast (mwLog (mwInit e)))))

/-- The wire response: `res.status(statusCode).json(...)` sends a JSON
object with exactly these two fields. -/
structure Response where
  statusCode : Nat
  message : String
deriving DecidableEq, Repr

/-- A JSON value, as far as the wire contract needs. -/
inductive JVal where
  | num : Nat → JVal
  | str : String → JVal
deriving DecidableEq, Repr

/-- The JSON body literal
`\x7b statusCode: statusCode, message: error.message || ... \x7d`
as an ordered field list. -/
def Response.json (r : Response) : List (String × JVal) :=
  [("statusCode", .num r.statusCode), ("message", .str r.message)]

/-- The response step:
`const statusCode = error.statusCode || 500;`
`res.status(statusCode).json(\x7b statusCode, message: error.message || "Something went wrong" \x7d)`. -/
def mwRespond (s : MwState) : Response :=
  let statusCode := jsOrNat s.error.statusCode 500
  ⟨statusCode, jsOrStr s.error.message "Something went wrong"⟩

/-- The whole centralized error-handling middleware as a function from
the incoming error to the emitted response. -/
def errorHandler (e : RawError) : Response :=
  mwRespond (mwRun e)

/-- The catch-all `app.all(*)` handler: forwards
`new AppError("Can\x27t find " + req.url + " on this server", 404)`. -/
def catchAllHandler (url : String) : AppError :=
  AppError.new ("Can\x27t find " ++ url ++ " on this server") 404

/-- The error value not matching any of the four recognized shapes. -/
def unrecognized (e : RawError) : Prop :=
  e.name ≠ some "CastError" ∧ e.name ≠ some "ValidationError" ∧
  e.code ≠ some 11000 ∧ e.name ≠ some "DocumentNotFoundError"

instance (e : RawError) : Decidable (unrecognized e) := by
  unfold unrecognized; infer_instance

/-- Written from the spec wording of section 4.3 for comparison with the
source: the classifier evaluates all rules and the last matching rule in
the fixed order (invalid-identifier, field-validation,
uniqueness-conflict, not-found) wins, i.e. first match of the reversed
order; otherwise the shallow copy is kept. -/
def specLastMatchWins (e : RawError) : WorkingError :=
  if e.name = some "DocumentNotFoundError" then
    .app (AppError.new "Requested document not found" 404)
  else if e.code = some 11000 then
    let field := String.intercalate ", " ((e.keyValue.getD []).map Prod.fst)
    .app (AppError.new ("Duplicate field value: " ++ field) 400)
  else if e.name = some "ValidationError" then
    .app (AppError.new (String.intercalate ". " (e.errors.map Prod.snd)) 400)
  else if e.name = some "CastError" then
    .app (AppError.new "Invalid ID format" 400)
  else .copy e.message e.statusCode

/-! ## Helper lemmas (shared) -/

/-- The middleware preserves the binding `err` through every step. -/
theorem mwRun_err (e : RawError) : (mwRun e).err = e := by
  unfold mwRun mwRuleNotFound mwRuleDuplicate mwRuleValidation mwRuleCast mwLog mwInit
  dsimp only
  split_ifs <;> rfl

/-- The log records exactly the original incoming error. -/
theorem mwRun_logged (e : RawError) : (mwRun e).logged = [e] := by
  unfold mwRun mwRuleNotFound mwRuleDuplicate mwRuleValidation mwRuleCast mwLog mwInit
  dsimp only
  split_ifs <;> rfl

/-- The working value after the four sequential rules equals the
reverse-priority first-match classification. -/
theorem mwRun_error (e : RawError) : (mwRun e).error = specLastMatchWins e := by
  unfold mwRun mwRuleNotFound mwRuleDuplicate mwRuleValidation mwRuleCast mwLog mwInit
    specLastMatchWins
  dsimp only
  split_ifs <;> simp_all

/-- The emitted response, expressed through the classification result. -/
theorem errorHandler_eq (e : RawError) :
    errorHandler e =
      ⟨jsOrNat (specLastMatchWins e).statusCode 500,
       jsOrStr (specLastMatchWins e).message "Something went wrong"⟩ := by
  unfold errorHandler mwRespond
  rw [mwRun_error]

/-- A string with a nonempty right part is nonempty. -/
theorem append_ne_empty_of_right (a b : String) (h : b.length ≠ 0) :
    a ++ b ≠ "" := by
  intro hc
  have h2 := congrArg String.length hc
  rw [String.length_append] at h2
  rw [show ("" : String).length = 0 from rfl] at h2
  omega

/-- A string with a nonempty left part is nonempty. -/
theorem append_ne_empty_of_left (a b : String) (h : a.length ≠ 0) :
    a ++ b ≠ "" := by
  intro hc
  have h2 := congrArg String.length hc
  rw [String.length_append] at h2
  rw [show ("" : String).length = 0 from rfl] at h2
  omega

/-- JS truthy read of a present, nonempty string. -/
theorem jsOrStr_some_ne (s : String) (d : String) (h : s ≠ "") :
    jsOrStr (some s) d = s := by
  simp [jsOrStr, h]

/-! ## Claims -/

/-- Claim C1: for every handler wrapped by catchAsync, if the handler
execution rejects with a failure value e then the wrapper invokes next
exactly once more, with exactly e, and the resulting promise is resolved
(no unhandled rejection); if the handler resolves, the wrapped behaviour
is identical to the handler. -/
theorem catchAsync_forwards_rejection {α ε : Type} (fn : α → HandlerRun ε)
    (req : α) :
    (∀ e : ε, (fn req).outcome = Promise.rejected e →
      (catchAsync fn req).nextCalls = (fn req).nextCalls ++ [e] ∧
      (catchAsync fn req).outcome = Promise.resolved ()) ∧
    ((fn req).outcome = Promise.resolved () → catchAsync fn req = fn req) := by
  constructor
  · intro e he
    unfold catchAsync catchAsyncRun
    rw [he]
    exact ⟨rfl, rfl⟩
  · intro hv
    unfold catchAsync catchAsyncRun
    rw [hv]

/-- Claim C1 witness: a handler rejecting with "boom" leads to one next
call carrying "boom" and a resolved outcome; a resolving handler is left
unchanged. -/
theorem catchAsync_forwards_rejection_witness :
    (catchAsync (fun _ : Nat => (⟨[], Promise.rejected "boom"⟩ : HandlerRun String)) 0).nextCalls
      = ["boom"] ∧
    (catchAsync (fun _ : Nat => (⟨[], Promise.rejected "boom"⟩ : HandlerRun String)) 0).outcome
      = Promise.resolved () ∧
    catchAsync (fun _ : Nat => (⟨[], Promise.resolved ()⟩ : HandlerRun String)) 0
      = (⟨[], Promise.resolved ()⟩ : HandlerRun String) := by
  have h1 := (catchAsync_forwards_rejection
    (fun _ : Nat => (⟨[], Promise.rejected "boom"⟩ : HandlerRun String)) 0).1 "boom" rfl
  have h2 := (catchAsync_forwards_rejection
    (fun _ : Nat => (⟨[], Promise.resolved ()⟩ : HandlerRun String)) 0).2 rfl
  exact ⟨by simpa using h1.1, h1.2, h2⟩

/-- Claim C2: the classifier evaluates all four rules sequentially
without assuming exclusivity: the delivered working value is that of the
last matching rule in the order invalid-identifier, field-validation,
uniqueness-conflict, not-found; in particular an error carrying both the
CastError tag and code 11000 yields the uniqueness-conflict response. -/
theorem classifier_last_match_wins :
    (∀ e : RawError, (mwRun e).error = specLastMatchWins e) ∧
    errorHandler { name := some "CastError", code := some 11000,
                   keyValue := some [("f", "v")] } =
      ⟨400, "Duplicate field value: f"⟩ := by
  exact ⟨mwRun_error, rfl⟩

/-- Claim C3: a raw error tagged CastError (and not also carrying the
duplicate-key code, which a later rule would overwrite) produces status
400 with message "Invalid ID format". -/
theorem castError_response (e : RawError)
    (hname : e.name = some "CastError") (hcode : e.code ≠ some 11000) :
    errorHandler e = ⟨400, "Invalid ID format"⟩ := by
  rw [errorHandler_eq]
  unfold specLastMatchWins
  rw [hname]
  simp [hcode, WorkingError.statusCode, WorkingError.message, AppError.new,
    jsOrNat, jsOrStr]

/-- Claim C3 witness. -/
theorem castError_response_witness :
    errorHandler { name := some "CastError" } = ⟨400, "Invalid ID format"⟩ :=
  castError_response { name := some "CastError" } rfl (by decide)

/-- Claim C4: a raw error tagged ValidationError (not also carrying the
duplicate-key code, and with a nonempty joined message, as the JS falsy
check on the empty string would otherwise substitute the fallback)
produces status 400 with the per-field messages joined by ". "; for
fields a and b with messages "A invalid" and "B invalid" the message is
"A invalid. B invalid". -/
theorem validationError_response (e : RawError)
    (hname : e.name = some "ValidationError") (hcode : e.code ≠ some 11000)
    (hmsg : String.intercalate ". " (e.errors.map Prod.snd) ≠ "") :
    errorHandler e = ⟨400, String.intercalate ". " (e.errors.map Prod.snd)⟩ ∧
    errorHandler { name := some "ValidationError",
                   errors := [("a", "A invalid"), ("b", "B invalid")] } =
      ⟨400, "A invalid. B invalid"⟩ := by
  refine ⟨?_, rfl⟩
  rw [errorHandler_eq]
  unfold specLastMatchWins
  rw [hname]
  simp [hcode, WorkingError.statusCode, WorkingError.message, AppError.new,
    jsOrNat, jsOrStr, hmsg]

/-- Claim C4 witness. -/
theorem validationError_response_witness :
    errorHandler { name := some "ValidationError",
                   errors := [("a", "A invalid"), ("b", "B invalid")] } =
      ⟨400, "A invalid. B invalid"⟩ :=
  (validationError_response
    { name := some "ValidationError",
      errors := [("a", "A invalid"), ("b", "B invalid")] }
    rfl (by decide) (by decide)).1

/-- Claim C5: a raw error with code 11000 and a present keyValue payload
(and not tagged DocumentNotFoundError, which the later rule would
overwrite) produces status 400 with a message naming the keys of the
payload; for payload key email the message contains "email". -/
theorem duplicateKey_response (e : RawError) (kv : List (String × String))
    (hcode : e.code = some 11000) (hkv : e.keyValue = some kv)
    (hname : e.name ≠ some "DocumentNotFoundError") :
    errorHandler e =
      ⟨400, "Duplicate field value: " ++ String.intercalate ", " (kv.map Prod.fst)⟩ ∧
    (∃ p q : String,
      (errorHandler { code := some 11000,
                      keyValue := some [("email", "x@y.com")] }).message =
        p ++ "email" ++ q) := by
  refine ⟨?_, "Duplicate field value: ", "", rfl⟩
  rw [errorHandler_eq]
  unfold specLastMatchWins
  rw [hcode, hkv]
  have hne : ("Duplicate field value: " ++
      String.intercalate ", " (kv.map Prod.fst) : String) ≠ "" :=
    append_ne_empty_of_left _ _ (by decide)
  simp [hname, WorkingError.statusCode, WorkingError.message, AppError.new,
    jsOrNat, jsOrStr_some_ne _ _ hne]

/-- Claim C5 witness. -/
theorem duplicateKey_response_witness :
    errorHandler { code := some 11000,
                   keyValue := some [("email", "x@y.com")] } =
      ⟨400, "Duplicate field value: email"⟩ := by
  have h := (duplicateKey_response
    { code := some 11000, keyValue := some [("email", "x@y.com")] }
    [("email", "x@y.com")] rfl rfl (by decide)).1
  simpa using h

/-- Claim C6: a raw error tagged DocumentNotFoundError produces status
404 with message "Requested document not found"; the rule is last, so no
other rule can overwrite it. -/
theorem documentNotFound_response (e : RawError)
    (hname : e.name = some "DocumentNotFoundError") :
    errorHandler e = ⟨404, "Requested document not found"⟩ := by
  rw [errorHandler_eq]
  unfold specLastMatchWins
  rw [hname]
  simp [WorkingError.statusCode, WorkingError.message, AppError.new,
    jsOrNat, jsOrStr]

/-- Claim C6 witness. -/
theorem documentNotFound_response_witness :
    errorHandler { name := some "DocumentNotFoundError" } =
      ⟨404, "Requested document not found"⟩ :=
  documentNotFound_response { name := some "DocumentNotFoundError" } rfl

/-- An error matching no recognized shape keeps the shallow copy as the
working value. -/
theorem specLastMatchWins_unrecognized (e : RawError) (h : unrecognized e) :
    specLastMatchWins e = .copy e.message e.statusCode := by
  obtain ⟨h1, h2, h3, h4⟩ := h
  unfold specLastMatchWins
  rw [if_neg h4, if_neg h3, if_neg h2, if_neg h1]

/-- Claim C7: the outgoing status is the classified statusCode when set
(and nonzero, as the JS falsy check sends 0 to the default) and 500
otherwise; the body is a JSON object with exactly the two fields
statusCode (number) and message (string); for an unclassified error the
message is the original message when present and nonempty, else the
nonempty fallback "Something went wrong", and with no statusCode the
status is 500. -/
theorem response_contract (e : RawError) :
    (∀ n : Nat, (mwRun e).error.statusCode = some n → n ≠ 0 →
      (errorHandler e).statusCode = n) ∧
    ((mwRun e).error.statusCode = none → (errorHandler e).statusCode = 500) ∧
    ((errorHandler e).json =
      [("statusCode", JVal.num (errorHandler e).statusCode),
       ("message", JVal.str (errorHandler e).message)]) ∧
    (unrecognized e → ∀ m : String, e.message = some m → m ≠ "" →
      (errorHandler e).message = m) ∧
    (unrecognized e → e.message = none →
      (errorHandler e).message = "Something went wrong" ∧
      (errorHandler e).message ≠ "" ∧
      (e.statusCode = none → (errorHandler e).statusCode = 500)) := by
  refine ⟨?_, ?_, rfl, ?_, ?_⟩
  · intro n h hn
    unfold errorHandler mwRespond
    rw [h]
    simp [jsOrNat, hn]
  · intro h
    unfold errorHandler mwRespond
    rw [h]
    rfl
  · intro hu m hm hne
    rw [errorHandler_eq, specLastMatchWins_unrecognized e hu]
    simpa [WorkingError.message, hm] using jsOrStr_some_ne m _ hne
  · intro hu hm
    rw [errorHandler_eq, specLastMatchWins_unrecognized e hu]
    refine ⟨by simp [WorkingError.message, hm, jsOrStr], ?_, ?_⟩
    · simp [WorkingError.message, hm, jsOrStr]
    · intro hs
      simp [WorkingError.statusCode, hs, jsOrNat]

/-- Claim C7 witness: the empty raw error is unclassified, has no
message, and yields status 500 with the fallback message. -/
theorem response_contract_witness :
    (errorHandler {}).statusCode = 500 ∧
    (errorHandler {}).message = "Something went wrong" := by
  have h := response_contract {}
  exact ⟨h.2.1 rfl, (h.2.2.2.2 (by decide) rfl).1⟩

/-- Claim C8: the catch-all handler synthesizes an operational
Application Error with status 404 whose message names the unmatched path,
and feeding it to the error-handling middleware emits status 404 with a
message containing that path. -/
theorem catchAll_not_found (url : String) :
    (catchAllHandler url).statusCode = 404 ∧
    (catchAllHandler url).isOperational = true ∧
    errorHandler (AppError.toRaw (catchAllHandler url)) =
      ⟨404, "Can\x27t find " ++ url ++ " on this server"⟩ ∧
    ∃ p q : String,
      (errorHandler (AppError.toRaw (catchAllHandler url))).message =
        p ++ url ++ q := by
  have hne : ("Can\x27t find " ++ url ++ " on this server" : String) ≠ "" :=
    append_ne_empty_of_right _ _ (by decide)
  have h3 : errorHandler (AppError.toRaw (catchAllHandler url)) =
      ⟨404, "Can\x27t find " ++ url ++ " on this server"⟩ := by
    rw [errorHandler_eq]
    unfold specLastMatchWins AppError.toRaw catchAllHandler AppError.new
    simp [WorkingError.statusCode, WorkingError.message, jsOrNat,
      jsOrStr_some_ne _ _ hne]
  exact ⟨rfl, rfl, h3, "Can\x27t find ", " on this server", by rw [h3]⟩

/-- Claim C9: the middleware never mutates the incoming error: the
original error value is carried unchanged through every classification
step (the rules reassign only the working copy), and the value recorded
for logging is the original error, not the classification result. -/
theorem middleware_preserves_original (e : RawError) :
    (mwRun e).err = e ∧ (mwRun e).logged = [e] :=
  ⟨mwRun_err e, mwRun_logged e⟩

/-- Claim C10: a raw error with code 11000 and an absent keyValue payload
(and not tagged DocumentNotFoundError) is still classified without
failing: the guarded access yields an empty key set, and the response is
the well-formed status-400 JSON body with message
"Duplicate field value: ". -/
theorem duplicateKey_missing_payload (e : RawError)
    (hcode : e.code = some 11000) (hkv : e.keyValue = none)
    (hname : e.name ≠ some "DocumentNotFoundError") :
    errorHandler e = ⟨400, "Duplicate field value: "⟩ ∧
    (errorHandler e).json =
      [("statusCode", JVal.num 400),
       ("message", JVal.str "Duplicate field value: ")] := by
  have h1 : errorHandler e = ⟨400, "Duplicate field value: "⟩ := by
    rw [errorHandler_eq]
    unfold specLastMatchWins
    rw [if_neg hname, hcode, hkv]
    rfl
  exact ⟨h1, by rw [h1]; rfl⟩

/-- Claim C10 witness. -/
theorem duplicateKey_missing_payload_witness :
    errorHandler { code := some 11000 } = ⟨400, "Duplicate field value: "⟩ :=
  (duplicateKey_missing_payload { code := some 11000 } rfl rfl (by decide)).1

end ExpressErrors
